import Mathlib

/-!
Verification of the alignment and diff-classification engine of the
CocoFile repository (scripts `coco21.py` and `coco9.py`).

The engine is shallowly embedded: a pandas cell is a `Value`, a DataFrame
row is a `Rec` (an association list from column name to cell), and each
helper of the two scripts becomes a Lean function of the same name.
String-date parsing performed by `pd.to_datetime` and the wall clock
`pd.Timestamp.now()` are external library facilities, so every definition
that needs them takes an explicit parse function `pd : String → Option Int`
and a reference instant `now : Int`; a parse failure (`none`) models the
`ValueError` that the scripts catch with `try/except`.
-/

namespace Coco

/-- A pandas scalar cell: missing (`NaN`), a string, an integer, or a
timestamp.  `date` and `num` carry the timestamp / numeric value. -/
inductive Value where
  | nan : Value
  | str : String → Value
  | num : Int → Value
  | date : Int → Value
deriving DecidableEq

/-- `pd.isna(v)`. -/
def Value.isna : Value → Bool
  | Value.nan => true
  | _ => false

/-- Python `str(v)` (`str(np.nan) = "nan"`). -/
def pyStr : Value → String
  | Value.nan => "nan"
  | Value.str s => s
  | Value.num n => toString n
  | Value.date d => toString d

/-- `.strip()` on the character list: drop whitespace from both ends. -/
def pyTrimList (l : List Char) : List Char :=
  ((l.dropWhile Char.isWhitespace).reverse.dropWhile Char.isWhitespace).reverse

/-- Python `s.strip()`. -/
def pyTrim (s : String) : String := ⟨pyTrimList s.data⟩

/-- Python `s.lower()` (ASCII case folding). -/
def pyLower (s : String) : String := ⟨s.data.map Char.toLower⟩

/-- `needle` is a prefix of `hay` (over character lists). -/
def isPrefixList : List Char → List Char → Bool
  | [], _ => true
  | _ :: _, [] => false
  | a :: as, b :: bs => a == b && isPrefixList as bs

/-- `needle` occurs as a contiguous sublist of `hay`. -/
def subList (needle : List Char) : List Char → Bool
  | [] => isPrefixList needle []
  | b :: bs => isPrefixList needle (b :: bs) || subList needle bs

/-- Python's substring test `needle in hay`. -/
def pyIn (needle hay : String) : Bool := subList needle.data hay.data

/-- `sep.join` over a list of strings (`", ".join(parts)`). -/
def joinSep (sep : String) : List String → String
  | [] => ""
  | [x] => x
  | x :: y :: rest => x ++ sep ++ joinSep sep (y :: rest)

/-- A DataFrame row: an ordered mapping from column name to cell value.
A blank spreadsheet cell is stored as `Value.nan`, which is why both
`row[c]` and `row.get(c, default)` on an existing column can yield `NaN`. -/
structure Rec where
  fields : List (String × Value)
deriving DecidableEq

/-- `row.get(c, d)`: the value of column `c`, or `d` when the column is
absent from the row altogether. -/
def Rec.getD (r : Rec) (c : String) (d : Value) : Value :=
  match r.fields.lookup c with
  | some v => v
  | none => d

/-- `row[c]` / `row.get(c, np.nan)`: absent columns read as `NaN`. -/
def Rec.get (r : Rec) (c : String) : Value := r.getD c Value.nan

/-- `df[c] = v` row-wise: replace (or append) column `c`. -/
def Rec.set (r : Rec) (c : String) (v : Value) : Rec :=
  ⟨(r.fields.filter (fun p => p.1 != c)) ++ [(c, v)]⟩

/-- `pd.to_datetime(v)` under the injected string parser `pd`.  A `NaN`
input yields `NaT`, which compares false against every instant, modelled
as `none`; numbers and timestamps convert to their instant. -/
def pyToDatetime (pd : String → Option Int) : Value → Option Int
  | Value.nan => none
  | Value.str s => pd s
  | Value.num n => some n
  | Value.date d => some d

/-- `split_noel` (identical in both scripts): split the raw identifier at
the first underscore into `(NoelFirst, NoelSecond)`. -/
def split_noel (v : Value) : Option String × Option String :=
  if v.isna then (none, none)
  else
    let l := pyTrimList (pyStr v).data
    if l.contains '_' then
      let left : String := ⟨l.takeWhile (fun ch => ch != '_')⟩
      let right : String := ⟨(l.dropWhile (fun ch => ch != '_')).drop 1⟩
      (some left, some right)
    else (some (⟨l⟩ : String), none)

/-- `coco21.get_activity_status`: "close" in the Daytona text, else a
parseable past Elastic Daytona date, makes the record Inactive. -/
def get_activity_status (pd : String → Option Int) (now : Int) (row : Rec) : String :=
  let dayt := pyLower (pyStr (row.getD ("Daytona") (Value.str (""))))
  let elast := row.getD ("Elastic Daytona") (Value.str (""))
  if pyIn ("close") dayt then "Inactive"
  else if !elast.isna then
    match pyToDatetime pd elast with
    | some dt => if dt < now then "Inactive" else "Active"
    | none => "Active"
  else "Active"

/-- `coco9.is_inactive`: "closed" in the Daytona text (only tested when it
is a string), else a parseable past Elastic date. -/
def is_inactive (pd : String → Option Int) (now : Int) (dayt elast : Value) : Bool :=
  if (match dayt with
      | Value.str s => pyIn ("closed") (pyLower s)
      | _ => false) then true
  else
    match pyToDatetime pd elast with
    | some dt => decide (dt < now)
    | none => false

/-- The Status column assignment of `coco9.main` (lines 82-89). -/
def coco9_status (pd : String → Option Int) (now : Int) (row : Rec) : String :=
  if is_inactive pd now (row.getD ("Daytona") (Value.str (""))) (row.getD ("Elastic Daytona") (Value.str (""))) then
    "Inactive"
  else "Active"

/-- The grouping key `NoelFirst` of an (enriched) row. -/
def noelFirst (r : Rec) : Option String := (split_noel (r.get ("Noel"))).1

/-- The discriminator `NoelSecond` of an (enriched) row. -/
def noelSecond (r : Rec) : Option String := (split_noel (r.get ("Noel"))).2

/-- `sorted(set(df_t1["NoelFirst"].dropna()) | set(df_t2["NoelFirst"].dropna()))`:
all non-null primary keys of either source, sorted, without duplicates. -/
def allNoels (t1 t2 : List Rec) : List String :=
  (((t1.filterMap noelFirst) ++ (t2.filterMap noelFirst)).insertionSort (fun a b => a ≤ b)).dedup

/-- `df[df["NoelFirst"] == k]`: the rows of one source whose primary key
is `k`, in stable source order.  Null-key rows match no `k`. -/
def subRows (t : List Rec) (k : String) : List Rec :=
  t.filter (fun r => noelFirst r == some k)

/-- `coco21.main` lines 56-69: the group's list of `NoelSecond` values
(`second_map`) has length greater than one, i.e. the group holds at least
two Table2 rows. -/
def isManyToMany (t2 : List Rec) (k : String) : Bool :=
  decide (1 < ((subRows t2 k).map noelSecond).length)

/-- `coco21.main` lines 64-73: the positional pairing of one key group;
index `i` pairs `recordsA[i]` (when `i < nA`) with `recordsB[i]`
(when `i < nB`), absent otherwise. -/
def alignedPairs (t1 t2 : List Rec) (k : String) : List (Option Rec × Option Rec) :=
  let a := subRows t1 k
  let b := subRows t2 k
  (List.range (max a.length b.length)).map (fun i => (a[i]?, b[i]?))

/-- `coco21.safe_str`. -/
def safe_str (v : Value) : String :=
  if v.isna then "" else pyTrim (pyStr v)

/-- Reading a column from an optional row (`row[c] if row is not None
else np.nan`). -/
def vget (row : Option Rec) (c : String) : Value :=
  match row with
  | some r => r.get c
  | none => Value.nan

/-- Output record of `coco21.build_block1`. -/
structure Block1 where
  t1Noel : Value
  t1Daytona : Value
  t1Elastic : Value
  t1Status : Value
  t2Noel : Value
  t2Daytona : Value
  t2Elastic : Value
  t2Status : Value
  comment1 : String
  comment2 : String
deriving DecidableEq

/-- `coco21.build_block1`. -/
def build_block1 (row1 row2 : Option Rec) (m2m : Bool) : Block1 :=
  let stat1 := vget row1 ("Status")
  let stat2 := vget row2 ("Status")
  let s1 := pyStr stat1
  let s2 := pyStr stat2
  let parts := (if !stat1.isna then [("Table1 ") ++ s1] else []) ++
               (if !stat2.isna then [("Table2 ") ++ s2] else [])
  { t1Noel := vget row1 ("Noel"), t1Daytona := vget row1 ("Daytona"),
    t1Elastic := vget row1 ("Elastic Daytona"), t1Status := stat1,
    t2Noel := vget row2 ("Noel"), t2Daytona := vget row2 ("Daytona"),
    t2Elastic := vget row2 ("Elastic Daytona"), t2Status := stat2,
    comment1 := joinSep (", ") parts,
    comment2 :=
      if m2m then "many-to-many"
      else if row1.isNone && row2.isSome then "missing in Table1"
      else if row2.isNone && row1.isSome then "missing in Table2"
      else "one-one" }

/-- The shared-column list of `coco21.build_block2`, in source order. -/
def shared_cols : List String :=
  ["Noel", "Daytona", "No Thing", "Pizza", "Pizza No Thing",
   "Thing Noel", "Pizza Coco Daytona", "Sun Daytona", "Elastic Daytona",
   "Hero Rome", "Coco Copo Opa Noel", "Coco Coco Opa Elastic Noel"]

/-- One iteration of the BLOC 2 diff scan (`coco21.build_block2` lines
234-252): the entry appended to `diff_cols` for column `c`, or `none`
when the column does not offend. -/
def diffEntry (c : String) (v1 v2 : Value) : Option String :=
  if v1.isna && !v2.isna then some (c ++ " [T1 missing, T2 present]")
  else if !v1.isna && v2.isna then some (c ++ " [T1 present, T2 missing]")
  else
    let sv1 := safe_str v1
    let sv2 := safe_str v2
    if sv1 != sv2 then some (c ++ " [T1=" ++ sv1 ++ ", T2=" ++ sv2 ++ "]")
    else none

/-- The full `diff_cols` list of `coco21.build_block2`: every shared
column except "Noel" that offends, in column order. -/
def diffCols (row1 row2 : Option Rec) : List String :=
  (shared_cols.filter (fun c => c != "Noel")).filterMap
    (fun c => diffEntry c (vget row1 c) (vget row2 c))

/-- Output record of `coco21.build_block2`. -/
structure Block2 where
  t1Vals : List Value
  t2Vals : List Value
  comment1 : String
  comment2 : String
  comment3 : String
deriving DecidableEq

/-- `coco21.build_block2`. -/
def build_block2 (row1 row2 : Option Rec) : Block2 :=
  let noel1 := vget row1 ("Noel")
  let noel2 := vget row2 ("Noel")
  let c1 :=
    if noel1.isna && !noel2.isna then "Missing in Table1"
    else if !noel1.isna && noel2.isna then "Missing in Table2"
    else if noel1.isna && noel2.isna then "No Noel in both?"
    else "Both present"
  let cs :=
    if noel1.isna || noel2.isna then (("N/A"), ("N/A"))
    else
      let dc := diffCols row1 row2
      if !dc.isEmpty then
        (("shared dimensions GAP"),
         if !dc.isEmpty then ("Diff columns: ") ++ joinSep (", ") dc
         else "Diff columns: ???")
      else (("shared dimensions MATCH"), ("No differences"))
  { t1Vals := shared_cols.map (fun c => vget row1 c),
    t2Vals := shared_cols.map (fun c => vget row2 c),
    comment1 := c1, comment2 := cs.1, comment3 := cs.2 }

/-- The BLOC 3 column list of `coco21.main`. -/
def block3_cols : List String :=
  ["Fresca Ana", "Fusion Core", "Commercial Coco", "Super Resort",
   "Italy Coco Coco", "Virtual America", "Fun Coco Elastic",
   "Fun Coco Fun Noel", "Right"]

/-- Output record of `coco21.build_block3`. -/
structure Block3 where
  t2Vals : List Value
deriving DecidableEq

/-- `coco21.build_block3`: Table2 values only; all `NaN` when the Table2
side is absent. -/
def build_block3 (row2 : Option Rec) (cols : List String) : Block3 :=
  match row2 with
  | none => ⟨cols.map (fun _ => Value.nan)⟩
  | some r => ⟨cols.map (fun c => r.get c)⟩

/-- The per-record enrichment of `coco21.main` lines 44-45: compute the
Status column before grouping. -/
def enrich (pd : String → Option Int) (now : Int) (t : List Rec) : List Rec :=
  t.map (fun r => r.set ("Status") (Value.str (get_activity_status pd now r)))

/-- One output row (the three blocks) for one aligned pair of a group
whose many-to-many flag is `m2m` (`coco21.main` lines 75-85). -/
def buildRow (m2m : Bool) (p : Option Rec × Option Rec) : Block1 × Block2 × Block3 :=
  (build_block1 p.1 p.2 m2m, build_block2 p.1 p.2, build_block3 p.2 block3_cols)

/-- The rows of one key group, in pair-index order. -/
def groupRows (t1 t2 : List Rec) (k : String) : List (Block1 × Block2 × Block3) :=
  (alignedPairs t1 t2 k).map (buildRow (isManyToMany t2 k))

/-- The full output row sequence of `coco21.main` (`comparison_rows`):
key groups in sorted key order, pairs in positional order. -/
def comparisonRows (pd : String → Option Int) (now : Int) (t1 t2 : List Rec) :
    List (Block1 × Block2 × Block3) :=
  let e1 := enrich pd now t1
  let e2 := enrich pd now t2
  (allNoels e1 e2).flatMap (fun k => groupRows e1 e2 k)

/-- `coco9.main` core-column list. -/
def core_columns : List String :=
  ["Noel", "Daytona", "No Thing", "Pizza", "Pizza No Thing",
   "Pizza Coco Daytona", "Sun Daytona", "Elastic Daytona", "Hero Rome",
   "Coco Coco Opa Noel", "Coco Coco Opa Elastic Noel", "Land"]

/-- `coco9.check_missing_core`: core columns whose Block A value is `NaN`
on the Table1 / Table2 side. -/
def check_missing_core (row1 row2 : Option Rec) (coreT1 coreT2 : List String) :
    List String × List String :=
  (coreT1.filter (fun c => (vget row1 c).isna),
   coreT2.filter (fun c => (vget row2 c).isna))

/-- `coco9.has_mismatch`: columns of both lists whose two values are both
present and differ after string conversion and trimming. -/
def has_mismatch (row1 row2 : Option Rec) (l1 l2 : List String) : List String :=
  l1.filter (fun c => l2.contains c &&
    !(vget row1 c).isna && !(vget row2 c).isna &&
    safe_str (vget row1 c) != safe_str (vget row2 c))

/-- `coco9.main` lines 127-133: the Block A aggregate comment, where the
per-source core lists are `core_columns` restricted to each sheet's
columns. -/
def blockA_comment1 (row1 row2 : Option Rec) (t1cols t2cols : List String) : String :=
  let coreT1 := core_columns.filter (fun c => t1cols.contains c)
  let coreT2 := core_columns.filter (fun c => t2cols.contains c)
  let ms := check_missing_core row1 row2 coreT1 coreT2
  let mm := has_mismatch row1 row2 coreT1 coreT2
  if !ms.1.isEmpty || !ms.2.isEmpty then "Missing Core Data"
  else if !mm.isEmpty then "GAP"
  else "MATCH"

/-- `coco9.main` line 142: the Block A mismatch-detail comment. -/
def blockA_comment3 (row1 row2 : Option Rec) (t1cols t2cols : List String) : String :=
  let coreT1 := core_columns.filter (fun c => t1cols.contains c)
  let coreT2 := core_columns.filter (fun c => t2cols.contains c)
  let mm := has_mismatch row1 row2 coreT1 coreT2
  if !mm.isEmpty then ("Mismatched columns: ") ++ joinSep (", ") mm
  else "No mismatch"

/-- `coco9.main` lines 150-153: the per-side Status string of Block B,
"Missing" when the side is absent. -/
def statusOfOpt (row : Option Rec) : String :=
  match row with
  | some r => pyStr (r.get ("Status"))
  | none => "Missing"

/-- `coco9.make_active_comment`. -/
def make_active_comment (s1 s2 : String) : String :=
  if s1 = "Active" ∧ s2 = "Active" then "Both Active"
  else if s1 = "Active" ∧ s2 = "Inactive" then "T1 Active, T2 Inactive"
  else if s1 = "Inactive" ∧ s2 = "Active" then "T1 Inactive, T2 Active"
  else if s1 = "Inactive" ∧ s2 = "Inactive" then "Both Inactive"
  else "One or both missing"

/-- The `ActiveComment` cell of `coco9.main` line 170 for one aligned
pair. -/
def coco9ActiveComment (row1 row2 : Option Rec) : String :=
  make_active_comment (statusOfOpt row1) (statusOfOpt row2)

/-! ## Specification-side vocabulary (spec section 4.4) -/

/-- The spec's `FieldOutcome` kinds. -/
inductive FieldOutcome where
  | bothMissing : FieldOutcome
  | missingInA : FieldOutcome
  | missingInB : FieldOutcome
  | matched : FieldOutcome
  | mismatch : FieldOutcome
deriving DecidableEq

/-- The spec's per-field classification (section 4.4): both absent, one
absent, or both present and compared after string normalization. -/
def specFieldOutcome (v1 v2 : Value) : FieldOutcome :=
  if v1.isna && v2.isna then FieldOutcome.bothMissing
  else if v1.isna then FieldOutcome.missingInA
  else if v2.isna then FieldOutcome.missingInB
  else if safe_str v1 == safe_str v2 then FieldOutcome.matched
  else FieldOutcome.mismatch

/-- A field outcome that blocks a `MATCH` aggregate per the spec:
`Mismatch`, `MissingInA`, or `MissingInB`. -/
def offending (v1 v2 : Value) : Bool :=
  specFieldOutcome v1 v2 == FieldOutcome.missingInA ||
  specFieldOutcome v1 v2 == FieldOutcome.missingInB ||
  specFieldOutcome v1 v2 == FieldOutcome.mismatch

/-- The claim's Status Classifier rules, verbatim: case-insensitive
substring "close", else a parsed date strictly before `now`, else Active;
an unparseable date acts as no date. -/
def statusRulesClose (pd : String → Option Int) (now : Int) (textv datev : Value) : String :=
  if pyIn ("close") (pyLower (pyStr textv)) then "Inactive"
  else
    match pyToDatetime pd datev with
    | some dt => if dt < now then "Inactive" else "Active"
    | none => "Active"

/-- The claim's rule list amended as `coco9.is_inactive` implements it:
the substring is "closed" and the text rule only fires on string values. -/
def statusRulesClosed (pd : String → Option Int) (now : Int) (textv datev : Value) : String :=
  if (match textv with
      | Value.str s => pyIn ("closed") (pyLower s)
      | _ => false) then "Inactive"
  else
    match pyToDatetime pd datev with
    | some dt => if dt < now then "Inactive" else "Active"
    | none => "Active"

end Coco

namespace Coco

/-! ## Claims -/

/-- C1, counterexample: two Table2 rows that share the single secondary
key "001" form a group with one distinct `SecondaryKey` value, yet the
code flags it many-to-many, because `coco21.main` line 69 tests the
length of the group's `NoelSecond` list, not its distinct count. -/
theorem c1_counterexample :
    isManyToMany (enrich (fun _ => none) 0
        [⟨[("Noel", Value.str ("A_001"))]⟩, ⟨[("Noel", Value.str ("A_001"))]⟩]) "A" = true ∧
    (((subRows (enrich (fun _ => none) 0
        [⟨[("Noel", Value.str ("A_001"))]⟩, ⟨[("Noel", Value.str ("A_001"))]⟩]) "A").map
          noelSecond).dedup).length = 1 := by
  decide

/-- C1, amended: a KeyGroup is flagged many-to-many iff it contains at
least two Source-B records, regardless of how many distinct
`SecondaryKey` values those records carry. -/
theorem c1_m2m_flag (t2 : List Rec) (k : String) :
    isManyToMany t2 k = true ↔ 2 ≤ (subRows t2 k).length := by
  simp only [isManyToMany, List.length_map, decide_eq_true_eq]
  omega

/-- C3: the many-to-many flag overrides the presence comment.  Whatever
the sides of the pair, a true flag yields the fixed "many-to-many"
comment, and every row built for a flagged group carries it. -/
theorem c3_m2m_propagation :
    (∀ row1 row2 : Option Rec, (build_block1 row1 row2 true).comment2 = "many-to-many") ∧
    (∀ (pd : String → Option Int) (now : Int) (t1 t2 : List Rec) (k : String),
      isManyToMany (enrich pd now t2) k = true →
      ∀ row ∈ groupRows (enrich pd now t1) (enrich pd now t2) k,
        row.1.comment2 = "many-to-many") := by
  constructor
  · intro row1 row2
    rfl
  · intro pd now t1 t2 k h row hrow
    obtain ⟨p, hp, rfl⟩ := List.mem_map.mp hrow
    simp [buildRow, h, build_block1]

/-- The two Table2 records of the C3 scenario. -/
def c3t2 : List Rec := [⟨[("Noel", Value.str ("A_001"))]⟩, ⟨[("Noel", Value.str ("A_002"))]⟩]

/-- The first Table2 record of the C3 scenario, as enriched by the engine. -/
def c3rB1e : Rec := ⟨[("Noel", Value.str ("A_001")), ("Status", Value.str ("Active"))]⟩

/-- C3 witness: a concrete group with two distinct Table2 secondary keys
is flagged, and its first row carries the many-to-many comment. -/
theorem c3_witness :
    isManyToMany (enrich (fun _ => none) 0 c3t2) "A" = true ∧
    (buildRow (isManyToMany (enrich (fun _ => none) 0 c3t2) "A")
        ((none : Option Rec), some c3rB1e)).1.comment2 = "many-to-many" :=
  ⟨by decide,
    c3_m2m_propagation.2 (fun _ => none) 0 [] c3t2 "A" (by decide)
      (buildRow (isManyToMany (enrich (fun _ => none) 0 c3t2) "A")
        ((none : Option Rec), some c3rB1e)) (by decide)⟩

/-- C7, counterexample: an empty-string identifier does not yield a null
`PrimaryKey` — `split_noel` returns the empty string as the key — and the
record is grouped and aligned (one output row is produced for it) rather
than excluded. -/
theorem c7_counterexample :
    split_noel (Value.str ("")) = (some (""), none) ∧
    noelFirst ⟨[("Noel", Value.str (""))]⟩ = some ("") ∧
    (comparisonRows (fun _ => none) 0 [⟨[("Noel", Value.str (""))]⟩] []).length = 1 := by
  decide

/-- C7, amended: a null (`NaN`) identifier yields a null `PrimaryKey` and
such records appear on no side of any aligned pair; an empty-string
identifier instead yields the empty string as `PrimaryKey` (the record
stays in grouping). -/
theorem c7_null_key_excluded :
    split_noel Value.nan = (none, none) ∧
    (∀ (t1 t2 : List Rec) (k : String) (r : Rec), noelFirst r = none →
      ∀ p ∈ alignedPairs t1 t2 k, p.1 ≠ some r ∧ p.2 ≠ some r) ∧
    split_noel (Value.str ("")) = (some (""), none) := by
  refine ⟨rfl, ?_, rfl⟩
  intro t1 t2 k r hr p hp
  simp only [alignedPairs, List.mem_map] at hp
  obtain ⟨i, _, rfl⟩ := hp
  constructor
  · intro h1
    obtain ⟨hl, hEq⟩ := List.getElem?_eq_some_iff.mp h1
    have hmem : r ∈ subRows t1 k := hEq ▸ List.getElem_mem hl
    have hk := (List.mem_filter.mp hmem).2
    rw [hr] at hk
    simp at hk
  · intro h2
    obtain ⟨hl, hEq⟩ := List.getElem?_eq_some_iff.mp h2
    have hmem : r ∈ subRows t2 k := hEq ▸ List.getElem_mem hl
    have hk := (List.mem_filter.mp hmem).2
    rw [hr] at hk
    simp at hk

/-- A record whose identifier cell is blank (`NaN`). -/
def recNanNoel : Rec := ⟨[("Noel", Value.nan)]⟩

/-- A record with identifier "Z". -/
def recZ : Rec := ⟨[("Noel", Value.str ("Z"))]⟩

/-- C7 witness: a concrete null-identifier record is absent from the one
pair of a concrete group. -/
theorem c7_witness :
    noelFirst recNanNoel = none ∧
    ((some recZ, (none : Option Rec)) ∈ alignedPairs [recNanNoel, recZ] [] "Z") ∧
    ((some recZ, (none : Option Rec)).1 ≠ some recNanNoel ∧
     (some recZ, (none : Option Rec)).2 ≠ some recNanNoel) :=
  ⟨by decide, by decide,
    c7_null_key_excluded.2.1 [recNanNoel, recZ] [] "Z" recNanNoel (by decide)
      (some recZ, (none : Option Rec)) (by decide)⟩

/-- C10: the BLOC 3 component of an output row is a function of the
Table2 side alone — the Table1 side and the group flag never affect it —
and an absent Table2 side makes every BLOC 3 field `NaN`. -/
theorem c10_block3_function_of_B :
    (∀ (m2mA m2mB : Bool) (a aAlt b : Option Rec),
      (buildRow m2mA (a, b)).2.2 = (buildRow m2mB (aAlt, b)).2.2) ∧
    (∀ (m2m : Bool) (a : Option Rec),
      (buildRow m2m (a, none)).2.2.t2Vals = block3_cols.map (fun _ => Value.nan)) := by
  exact ⟨fun _ _ _ _ _ => rfl, fun _ _ => rfl⟩

/-- C2: each key group of `nA` Table1 and `nB` Table2 records yields
exactly `max nA nB` aligned pairs; pair `i` holds the i-th record of each
side exactly when `i` is below that side's count, absent otherwise; and
the full output row count is the sum of `max nA nB` over all key groups. -/
theorem c2_pairing_completeness :
    (∀ (t1 t2 : List Rec) (k : String),
      (alignedPairs t1 t2 k).length =
        max (subRows t1 k).length (subRows t2 k).length) ∧
    (∀ (t1 t2 : List Rec) (k : String) (i : Nat),
      (alignedPairs t1 t2 k)[i]? =
        if i < max (subRows t1 k).length (subRows t2 k).length
        then some ((subRows t1 k)[i]?, (subRows t2 k)[i]?)
        else none) ∧
    (∀ (t : List Rec) (k : String) (i : Nat),
      ((subRows t k)[i]?).isSome = decide (i < (subRows t k).length)) ∧
    (∀ (pd : String → Option Int) (now : Int) (t1 t2 : List Rec),
      (comparisonRows pd now t1 t2).length =
        ((allNoels (enrich pd now t1) (enrich pd now t2)).map
          (fun k => max (subRows (enrich pd now t1) k).length
                        (subRows (enrich pd now t2) k).length)).sum) := by
  refine ⟨?_, ?_, ?_, ?_⟩
  · intro t1 t2 k
    simp [alignedPairs]
  · intro t1 t2 k i
    simp only [alignedPairs]
    rw [List.getElem?_map]
    by_cases h : i < max (subRows t1 k).length (subRows t2 k).length
    · rw [List.getElem?_range h]
      simp [h]
    · have hnone : (List.range (max (subRows t1 k).length (subRows t2 k).length))[i]? = none := by
        rw [List.getElem?_eq_none_iff]
        simpa using Nat.le_of_not_lt h
      rw [hnone]
      simp [h]
  · intro t k i
    by_cases h : i < (subRows t k).length
    · simp [List.getElem?_eq_getElem h, h]
    · have hnone : (subRows t k)[i]? = none :=
        List.getElem?_eq_none_iff.mpr (Nat.le_of_not_lt h)
      simp [hnone, h]
  · intro pd now t1 t2
    simp only [comparisonRows, List.length_flatMap]
    have hfun : (List.length ∘ fun k => groupRows (enrich pd now t1) (enrich pd now t2) k)
        = fun k => max (subRows (enrich pd now t1) k).length
                       (subRows (enrich pd now t2) k).length := by
      funext k
      simp [groupRows, alignedPairs]
    rw [hfun]

/-- C6, counterexample: a Daytona value "Close" satisfies the claim's
rule 1 (case-insensitive substring "close"), yet `coco9.is_inactive`
classifies the record Active, because it looks for the substring
"closed". -/
theorem c6_counterexample :
    pyIn ("close") (pyLower (pyStr (Value.str ("Close")))) = true ∧
    coco9_status (fun _ => none) 0
      ⟨[("Daytona", Value.str ("Close")), ("Elastic Daytona", Value.str ("sometime"))]⟩ = "Active" := by
  decide

/-- C6, amended: `coco21.get_activity_status` implements the claim's
first-match rule list verbatim (substring "close", else parsed past date,
else Active; unparseable dates are no date); `coco9`'s classifier follows
the same rule order but looks for "closed" and only when the status value
is a string. -/
theorem c6_status_rules :
    (∀ (pd : String → Option Int) (now : Int) (row : Rec),
      get_activity_status pd now row =
        statusRulesClose pd now (row.getD ("Daytona") (Value.str ("")))
          (row.getD ("Elastic Daytona") (Value.str ("")))) ∧
    (∀ (pd : String → Option Int) (now : Int) (row : Rec),
      coco9_status pd now row =
        statusRulesClosed pd now (row.getD ("Daytona") (Value.str ("")))
          (row.getD ("Elastic Daytona") (Value.str ("")))) := by
  constructor
  · intro pd now row
    unfold get_activity_status statusRulesClose
    by_cases hc : pyIn ("close") (pyLower (pyStr (row.getD ("Daytona") (Value.str (""))))) = true
    · simp [hc]
    · cases hE : row.getD ("Elastic Daytona") (Value.str ("")) <;>
        simp [hc, hE, Value.isna, pyToDatetime]
  · intro pd now row
    unfold coco9_status is_inactive statusRulesClosed
    by_cases hg : (match row.getD ("Daytona") (Value.str ("")) with
        | Value.str s => pyIn ("closed") (pyLower s)
        | _ => false) = true
    · simp [hg]
    · cases hT : pyToDatetime pd (row.getD ("Elastic Daytona") (Value.str (""))) with
      | none => simp [hg, hT]
      | some dt => by_cases hlt : dt < now <;> simp [hg, hT, hlt]

/-- C8: the engine is total — every aligned pair of every key group
yields exactly one output row — and every absent or invalid value
degrades to one of the fixed classification comments. -/
theorem c8_defined_outcomes :
    (∀ (pd : String → Option Int) (now : Int) (t1 t2 : List Rec),
      (comparisonRows pd now t1 t2).length =
        ((allNoels (enrich pd now t1) (enrich pd now t2)).map
          (fun k => (alignedPairs (enrich pd now t1) (enrich pd now t2) k).length)).sum) ∧
    (∀ (pd : String → Option Int) (now : Int) (row : Rec),
      get_activity_status pd now row = "Active" ∨
      get_activity_status pd now row = "Inactive") ∧
    (∀ (row1 row2 : Option Rec) (m2m : Bool),
      (build_block1 row1 row2 m2m).comment2 = "many-to-many" ∨
      (build_block1 row1 row2 m2m).comment2 = "missing in Table1" ∨
      (build_block1 row1 row2 m2m).comment2 = "missing in Table2" ∨
      (build_block1 row1 row2 m2m).comment2 = "one-one") ∧
    (∀ row1 row2 : Option Rec,
      (build_block2 row1 row2).comment2 = "N/A" ∨
      (build_block2 row1 row2).comment2 = "shared dimensions GAP" ∨
      (build_block2 row1 row2).comment2 = "shared dimensions MATCH") := by
  refine ⟨?_, ?_, ?_, ?_⟩
  · intro pd now t1 t2
    simp only [comparisonRows, List.length_flatMap]
    have hfun : (List.length ∘ fun k => groupRows (enrich pd now t1) (enrich pd now t2) k)
        = fun k => (alignedPairs (enrich pd now t1) (enrich pd now t2) k).length := by
      funext k
      simp [groupRows]
    rw [hfun]
  · intro pd now row
    simp only [get_activity_status]
    split
    · exact Or.inr rfl
    · split
      · split
        · split
          · exact Or.inr rfl
          · exact Or.inl rfl
        · exact Or.inl rfl
      · exact Or.inl rfl
  · intro row1 row2 m2m
    dsimp only [build_block1]
    split
    · exact Or.inl rfl
    · split
      · exact Or.inr (Or.inl rfl)
      · split
        · exact Or.inr (Or.inr (Or.inl rfl))
        · exact Or.inr (Or.inr (Or.inr rfl))
  · intro row1 row2
    dsimp only [build_block2]
    split
    · exact Or.inl rfl
    · split
      · exact Or.inr (Or.inl rfl)
      · exact Or.inr (Or.inr rfl)

/-- C9: a key group with a single Table1 record and no Table2 records
appears in the key list, yields exactly one aligned pair whose Table2
side is absent, whose identity-block comment is "missing in Table2", and
whose activity comment reports the missing side rather than an
Active/Inactive state. -/
theorem c9_key_only_in_A (pd : String → Option Int) (now : Int) (t1 t2 : List Rec) (k : String)
    (hA : (subRows (enrich pd now t1) k).length = 1)
    (hB : subRows (enrich pd now t2) k = []) :
    k ∈ allNoels (enrich pd now t1) (enrich pd now t2) ∧
    (alignedPairs (enrich pd now t1) (enrich pd now t2) k).length = 1 ∧
    ∀ p ∈ alignedPairs (enrich pd now t1) (enrich pd now t2) k,
      p.1.isSome = true ∧ p.2 = none ∧
      (build_block1 p.1 p.2 (isManyToMany (enrich pd now t2) k)).comment2 = "missing in Table2" ∧
      coco9ActiveComment p.1 p.2 = "One or both missing" := by
  have hm2m : isManyToMany (enrich pd now t2) k = false := by
    simp [isManyToMany, hB]
  refine ⟨?_, ?_, ?_⟩
  · have hpos : 0 < (subRows (enrich pd now t1) k).length := by omega
    obtain ⟨r, hr⟩ := List.length_pos_iff_exists_mem.mp hpos
    have hk := (List.mem_filter.mp hr).2
    have hkey : noelFirst r = some k := by simpa using hk
    have hmem1 : r ∈ enrich pd now t1 := (List.mem_filter.mp hr).1
    have hfm : k ∈ (enrich pd now t1).filterMap noelFirst :=
      List.mem_filterMap.mpr ⟨r, hmem1, hkey⟩
    unfold allNoels
    rw [List.mem_dedup, (List.perm_insertionSort _ _).mem_iff, List.mem_append]
    exact Or.inl hfm
  · simp [alignedPairs, hA, hB]
  · intro p hp
    simp only [alignedPairs, List.mem_map] at hp
    obtain ⟨i, hi, rfl⟩ := hp
    rw [hA, hB] at hi
    simp only [List.length_nil, List.mem_range] at hi
    have hi0 : i = 0 := by omega
    subst hi0
    have hsome : ((subRows (enrich pd now t1) k)[0]?).isSome = true := by
      by_cases h : 0 < (subRows (enrich pd now t1) k).length
      · simp [List.getElem?_eq_getElem h]
      · omega
    have hnone : (subRows (enrich pd now t2) k)[0]? = none := by
      rw [hB]
      rfl
    refine ⟨hsome, hnone, ?_, ?_⟩
    · obtain ⟨r, hr⟩ := Option.isSome_iff_exists.mp hsome
      rw [hr, hnone]
      simp [build_block1, hm2m]
    · obtain ⟨r, hr⟩ := Option.isSome_iff_exists.mp hsome
      rw [hr, hnone]
      simp [coco9ActiveComment, statusOfOpt, make_active_comment]

/-- A nonempty list has `isEmpty = false`. -/
theorem isEmpty_false_of_ne_nil {α : Type} {l : List α} (h : l ≠ []) :
    l.isEmpty = false := by
  cases l with
  | nil => exact absurd rfl h
  | cons a t => rfl

/-- A BLOC 2 scan entry is produced exactly for the spec's offending
outcomes (`Mismatch`, `MissingInA`, `MissingInB`). -/
theorem diffEntry_none_iff (c : String) (v1 v2 : Value) :
    diffEntry c v1 v2 = none ↔ offending v1 v2 = false := by
  by_cases h1 : v1.isna = true
  · by_cases h2 : v2.isna = true
    · simp [diffEntry, offending, specFieldOutcome, safe_str, h1, h2]
    · simp [diffEntry, offending, specFieldOutcome, h1, h2]
  · by_cases h2 : v2.isna = true
    · simp [diffEntry, offending, specFieldOutcome, h1, h2]
    · by_cases h3 : safe_str v1 = safe_str v2
      · simp [diffEntry, offending, specFieldOutcome, h1, h2, h3]
      · simp [diffEntry, offending, specFieldOutcome, h1, h2, h3]

/-- The BLOC 2 diff list is empty iff no non-identity shared column
offends. -/
theorem diffCols_eq_nil_iff (row1 row2 : Option Rec) :
    diffCols row1 row2 = [] ↔
      ∀ c ∈ shared_cols, c ≠ "Noel" →
        offending (vget row1 c) (vget row2 c) = false := by
  unfold diffCols
  rw [List.filterMap_eq_nil_iff]
  constructor
  · intro h c hc hne
    have hcmem : c ∈ shared_cols.filter (fun c => c != "Noel") := by
      rw [List.mem_filter]
      exact ⟨hc, by simpa using hne⟩
    exact (diffEntry_none_iff c _ _).mp (h c hcmem)
  · intro h c hc
    have hm := List.mem_filter.mp hc
    exact (diffEntry_none_iff c _ _).mpr (h c hm.1 (by simpa using hm.2))

/-- C4, amended: the BLOC 2 aggregate of `coco21` is `MATCH` iff no
non-identity shared field offends, exactly as claimed; but the Block A
aggregate of `coco9` is `MATCH` iff no core column — the identity
included — is missing on either side and no both-present core column
mismatches, so an identity mismatch or a both-missing core column also
blocks `MATCH` there. -/
theorem c4_block_aggregate :
    (∀ row1 row2 : Option Rec,
      (vget row1 ("Noel")).isna = false → (vget row2 ("Noel")).isna = false →
      ((build_block2 row1 row2).comment2 = "shared dimensions MATCH" ↔
        ∀ c ∈ shared_cols, c ≠ "Noel" →
          offending (vget row1 c) (vget row2 c) = false)) ∧
    (∀ (row1 row2 : Option Rec) (t1cols t2cols : List String),
      blockA_comment1 row1 row2 t1cols t2cols = "MATCH" ↔
        (check_missing_core row1 row2
            (core_columns.filter (fun c => t1cols.contains c))
            (core_columns.filter (fun c => t2cols.contains c)) =
              (([] : List String), ([] : List String)) ∧
         has_mismatch row1 row2
            (core_columns.filter (fun c => t1cols.contains c))
            (core_columns.filter (fun c => t2cols.contains c)) = [])) := by
  constructor
  · intro row1 row2 h1 h2
    have hcmt : (build_block2 row1 row2).comment2 =
        (if diffCols row1 row2 = [] then "shared dimensions MATCH"
         else "shared dimensions GAP") := by
      dsimp only [build_block2]
      rw [h1, h2]
      by_cases hdc : diffCols row1 row2 = [] <;>
        simp [hdc, List.isEmpty_iff]
    rw [hcmt]
    by_cases hdc : diffCols row1 row2 = []
    · rw [if_pos hdc]
      exact iff_of_true rfl ((diffCols_eq_nil_iff row1 row2).mp hdc)
    · rw [if_neg hdc]
      refine iff_of_false (by decide) ?_
      intro hR
      exact hdc ((diffCols_eq_nil_iff row1 row2).mpr hR)
  · intro row1 row2 t1cols t2cols
    dsimp only [blockA_comment1, check_missing_core]
    by_cases hm1 : (core_columns.filter (fun c => t1cols.contains c)).filter
        (fun c => (vget row1 c).isna) = []
    · by_cases hm2 : (core_columns.filter (fun c => t2cols.contains c)).filter
          (fun c => (vget row2 c).isna) = []
      · by_cases hmm : has_mismatch row1 row2
            (core_columns.filter (fun c => t1cols.contains c))
            (core_columns.filter (fun c => t2cols.contains c)) = []
        · rw [hm1, hm2, hmm]
          rw [if_neg (by simp), if_neg (by simp)]
          exact iff_of_true rfl ⟨rfl, rfl⟩
        · rw [hm1, hm2, isEmpty_false_of_ne_nil hmm]
          rw [if_neg (by simp), if_pos (by simp)]
          exact iff_of_false (by decide) (fun hR => hmm hR.2)
      · rw [hm1, isEmpty_false_of_ne_nil hm2]
        rw [if_pos (by simp)]
        exact iff_of_false (by decide) (fun hR => hm2 (congrArg Prod.snd hR.1))
    · rw [isEmpty_false_of_ne_nil hm1]
      rw [if_pos (by simp)]
      exact iff_of_false (by decide) (fun hR => hm1 (congrArg Prod.fst hR.1))

/-- Table1 row of the C4 scenario: identifier "A". -/
def c4rowT1 : Rec := ⟨[("Noel", Value.str ("A")), ("Daytona", Value.str ("x"))]⟩

/-- Table2 row of the C4 scenario: identifier "A_001", same group "A". -/
def c4rowT2 : Rec := ⟨[("Noel", Value.str ("A_001")), ("Daytona", Value.str ("x"))]⟩

/-- The sheet columns of the C4 scenario. -/
def c4cols : List String := ["Noel", "Daytona"]

/-- C4, counterexample: identity present on both sides and every
non-identity core field matching, yet `coco9`'s Block A aggregate is
"GAP" (not `MATCH`), because the identity values "A" and "A_001" — the
normal shape of a grouped pair — enter its mismatch scan. -/
theorem c4_counterexample :
    (vget (some c4rowT1) ("Noel")).isna = false ∧
    (vget (some c4rowT2) ("Noel")).isna = false ∧
    (∀ c ∈ core_columns.filter (fun c => c4cols.contains c), c ≠ "Noel" →
      offending (vget (some c4rowT1) c) (vget (some c4rowT2) c) = false) ∧
    blockA_comment1 (some c4rowT1) (some c4rowT2) c4cols c4cols = "GAP" := by
  decide

/-- C4 witness: a pair equal on both sides has identity present, and the
theorem's equivalence yields the `MATCH` aggregate there. -/
theorem c4_witness :
    ((vget (some c4rowT1) ("Noel")).isna = false ∧
     (vget (some c4rowT1) ("Noel")).isna = false) ∧
    (build_block2 (some c4rowT1) (some c4rowT1)).comment2 = "shared dimensions MATCH" :=
  ⟨⟨by decide, by decide⟩,
    (c4_block_aggregate.1 (some c4rowT1) (some c4rowT1) (by decide) (by decide)).mpr
      (by decide)⟩

/-- C5: an aligned pair with the identity missing on a side gets the
block-specific missing wording and no per-field diff list: `coco21` BLOC 2
reports "N/A"/"N/A"; `coco9` Block A (whose identity-missing pairs are
exactly those with an absent side, null-key rows being excluded from
grouping) reports "Missing Core Data" with an empty mismatch detail. -/
theorem c5_identity_missing :
    (∀ row1 row2 : Option Rec,
      ((vget row1 ("Noel")).isna || (vget row2 ("Noel")).isna) = true →
      (build_block2 row1 row2).comment2 = "N/A" ∧
      (build_block2 row1 row2).comment3 = "N/A") ∧
    (∀ (r : Rec) (t1cols t2cols : List String), t2cols.contains ("Noel") = true →
      blockA_comment1 (some r) none t1cols t2cols = "Missing Core Data" ∧
      blockA_comment3 (some r) none t1cols t2cols = "No mismatch") ∧
    (∀ (r : Rec) (t1cols t2cols : List String), t1cols.contains ("Noel") = true →
      blockA_comment1 none (some r) t1cols t2cols = "Missing Core Data" ∧
      blockA_comment3 none (some r) t1cols t2cols = "No mismatch") := by
  refine ⟨?_, ?_, ?_⟩
  · intro row1 row2 h
    refine ⟨?_, ?_⟩ <;> (dsimp only [build_block2]; rw [if_pos h])
  · intro r t1cols t2cols h
    have hmem : ("Noel" : String) ∈ core_columns.filter (fun c => t2cols.contains c) := by
      rw [List.mem_filter]
      exact ⟨by decide, h⟩
    have hms2 : (core_columns.filter (fun c => t2cols.contains c)).filter
        (fun c => (vget (none : Option Rec) c).isna) =
          core_columns.filter (fun c => t2cols.contains c) :=
      List.filter_eq_self.mpr (fun c _ => rfl)
    have hne : core_columns.filter (fun c => t2cols.contains c) ≠ [] := by
      intro hE
      rw [hE] at hmem
      cases hmem
    have hmm : has_mismatch (some r) none
        (core_columns.filter (fun c => t1cols.contains c))
        (core_columns.filter (fun c => t2cols.contains c)) = [] := by
      refine List.filter_eq_nil_iff.mpr ?_
      intro c _
      simp [vget, Value.isna]
    constructor
    · dsimp only [blockA_comment1, check_missing_core]
      rw [hms2, isEmpty_false_of_ne_nil hne]
      rw [if_pos (by simp)]
    · dsimp only [blockA_comment3]
      rw [hmm]
      rfl
  · intro r t1cols t2cols h
    have hmem : ("Noel" : String) ∈ core_columns.filter (fun c => t1cols.contains c) := by
      rw [List.mem_filter]
      exact ⟨by decide, h⟩
    have hms1 : (core_columns.filter (fun c => t1cols.contains c)).filter
        (fun c => (vget (none : Option Rec) c).isna) =
          core_columns.filter (fun c => t1cols.contains c) :=
      List.filter_eq_self.mpr (fun c _ => rfl)
    have hne : core_columns.filter (fun c => t1cols.contains c) ≠ [] := by
      intro hE
      rw [hE] at hmem
      cases hmem
    have hmm : has_mismatch none (some r)
        (core_columns.filter (fun c => t1cols.contains c))
        (core_columns.filter (fun c => t2cols.contains c)) = [] := by
      refine List.filter_eq_nil_iff.mpr ?_
      intro c _
      simp [vget, Value.isna]
    constructor
    · dsimp only [blockA_comment1, check_missing_core]
      rw [hms1, isEmpty_false_of_ne_nil hne]
      rw [if_pos (by simp)]
    · dsimp only [blockA_comment3]
      rw [hmm]
      rfl

/-- A record with identifier "Y", used to witness C5. -/
def recY : Rec := ⟨[("Noel", Value.str ("Y"))]⟩

/-- C5 witness: a concrete pair with an absent side, in both engines. -/
theorem c5_witness :
    (((vget (none : Option Rec) ("Noel")).isna || (vget (some recY) ("Noel")).isna) = true ∧
     ((build_block2 (none : Option Rec) (some recY)).comment2 = "N/A" ∧
      (build_block2 (none : Option Rec) (some recY)).comment3 = "N/A")) ∧
    ((["Noel"] : List String).contains ("Noel") = true ∧
     (blockA_comment1 (some recY) none ["Noel"] ["Noel"] = "Missing Core Data" ∧
      blockA_comment3 (some recY) none ["Noel"] ["Noel"] = "No mismatch")) :=
  ⟨⟨by decide, c5_identity_missing.1 none (some recY) (by decide)⟩,
   ⟨by decide, c5_identity_missing.2.1 recY ["Noel"] ["Noel"] (by decide)⟩⟩

/-- C9 witness: the scenario with key "Z" present only in Table1 — the
hypotheses hold concretely and the key appears with exactly one pair. -/
theorem c9_witness :
    ((subRows (enrich (fun _ => none) 0 [recZ]) "Z").length = 1 ∧
     subRows (enrich (fun _ => none) 0 ([] : List Rec)) "Z" = []) ∧
    ("Z" ∈ allNoels (enrich (fun _ => none) 0 [recZ]) (enrich (fun _ => none) 0 ([] : List Rec)) ∧
     (alignedPairs (enrich (fun _ => none) 0 [recZ]) (enrich (fun _ => none) 0 ([] : List Rec)) "Z").length = 1) :=
  ⟨⟨by decide, by decide⟩,
   ⟨(c9_key_only_in_A (fun _ => none) 0 [recZ] [] "Z" (by decide) (by decide)).1,
    (c9_key_only_in_A (fun _ => none) 0 [recZ] [] "Z" (by decide) (by decide)).2.1⟩⟩

end Coco
